import Mathlib

/-!
Shallow embedding of the synchronization core of the telegram-bot-api excerpt:
the video-note entity cache and back-reference registry (`VideoNotesManager.cpp`)
and the payments protocol-translation helpers (`Payments.cpp`).

External collaborators that the spec places out of scope (the currency range
check `check_currency_amount`, the UTF-8 cleaning check `clean_input_string`)
are taken as parameters of the embedded functions.
-/

namespace Spec2Proof

/-! ### Handles and basic value types -/

/-- An opaque file handle (`td::FileId`), modelled as a natural number.
The empty handle is `0`. -/
abbrev FileId := Nat

/-- `FileId::is_valid`: the handle is non-empty. -/
def FileId.is_valid (f : FileId) : Bool := f != 0

/-! ### Payments protocol translation (`Payments.cpp`) -/

/-- `telegram_api::labeledPrice` and `td_api::labeledPricePart`: a label plus an
amount in the minimal currency unit (`int64`). -/
structure LabeledPrice where
  label : String
  amount : Int
deriving DecidableEq

/-- `convert_labeled_price` (Payments.cpp, lines 154-162).  `check_currency_amount`
is an external currency-validation helper (out of scope per the spec), passed as a
parameter.  The returned boolean records whether the invalid-amount defect was
logged (`LOG(ERROR)` in the source). -/
def convert_labeled_price (check_currency_amount : Int → Bool)
    (labeled_price : LabeledPrice) : LabeledPrice × Bool :=
  if !check_currency_amount labeled_price.amount then
    ({ labeled_price with
       amount := (if labeled_price.amount < 0 then -1 else 1) * 2 ^ 40 }, true)
  else
    (labeled_price, false)

/-- `telegram_api::invoice`: the wire shape, with its flag bits expanded into
booleans (`TEST_MASK`, `NAME_REQUESTED_MASK`, ...). -/
structure WireInvoice where
  currency : String
  prices : List LabeledPrice
  max_tip_amount : Int
  suggested_tip_amounts : List Int
  recurring_terms_url : String
  is_test : Bool
  name_requested : Bool
  phone_requested : Bool
  email_requested : Bool
  shipping_address_requested : Bool
  phone_to_provider : Bool
  email_to_provider : Bool
  is_flexible : Bool
deriving DecidableEq

/-- `td_api::invoice`: the translated shape returned by `convert_invoice`. -/
structure ApiInvoice where
  currency : String
  price_parts : List LabeledPrice
  max_tip_amount : Int
  suggested_tip_amounts : List Int
  recurring_payment_terms_of_service_url : String
  is_test : Bool
  need_name : Bool
  need_phone_number : Bool
  need_email_address : Bool
  need_shipping_address : Bool
  send_phone_number_to_provider : Bool
  send_email_address_to_provider : Bool
  is_flexible : Bool
deriving DecidableEq

/-- `convert_invoice` (Payments.cpp, lines 164-201): translates a wire invoice,
converting each labeled price, deriving the `need_*` booleans, zeroing an invalid
maximum tip amount, removing invalid suggested tip amounts (`td::remove_if`) and
truncating the suggested list to 4 entries (`resize(4)`). -/
def convert_invoice (check_currency_amount : Int → Bool) (invoice : WireInvoice) :
    ApiInvoice :=
  let labeled_prices :=
    invoice.prices.map (fun p => (convert_labeled_price check_currency_amount p).1)
  let need_phone_number := invoice.phone_requested || invoice.phone_to_provider
  let need_email_address := invoice.email_requested || invoice.email_to_provider
  let need_shipping_address := invoice.shipping_address_requested || invoice.is_flexible
  let max_tip_amount :=
    if invoice.max_tip_amount < 0 || !check_currency_amount invoice.max_tip_amount then 0
    else invoice.max_tip_amount
  let suggested_tip_amounts :=
    (invoice.suggested_tip_amounts.filter
      (fun amount => !(decide (amount < 0) || !check_currency_amount amount))).take 4
  { currency := invoice.currency
    price_parts := labeled_prices
    max_tip_amount := max_tip_amount
    suggested_tip_amounts := suggested_tip_amounts
    recurring_payment_terms_of_service_url := invoice.recurring_terms_url
    is_test := invoice.is_test
    need_name := invoice.name_requested
    need_phone_number := need_phone_number
    need_email_address := need_email_address
    need_shipping_address := need_shipping_address
    send_phone_number_to_provider := invoice.phone_to_provider
    send_email_address_to_provider := invoice.email_to_provider
    is_flexible := invoice.is_flexible }

/-- A concrete currency range check used to exercise the translation functions on
concrete inputs (the real helper is an external collaborator). -/
def exCheckCurrencyAmount (amount : Int) : Bool :=
  decide (-1000000 ≤ amount ∧ amount ≤ 1000000)

/-- C8: an amount that fails the currency range check is clamped to the signed
sentinel of magnitude `2^40` with the original sign preserved (negative amounts
to `-2^40`, non-negative to `2^40`), the defect is logged, and a labeled price
part is still returned with the label untouched; an amount that passes the check
is passed through unchanged and nothing is logged. -/
theorem convert_labeled_price_clamps (check : Int → Bool) (lp : LabeledPrice) :
    (check lp.amount = false →
      (convert_labeled_price check lp).1.label = lp.label ∧
      (convert_labeled_price check lp).2 = true ∧
      (0 ≤ lp.amount → (convert_labeled_price check lp).1.amount = 2 ^ 40) ∧
      (lp.amount < 0 → (convert_labeled_price check lp).1.amount = -(2 ^ 40))) ∧
    (check lp.amount = true → convert_labeled_price check lp = (lp, false)) := by
  constructor
  · intro hfail
    have h : convert_labeled_price check lp =
        ({ lp with amount := (if lp.amount < 0 then -1 else 1) * 2 ^ 40 }, true) := by
      simp [convert_labeled_price, hfail]
    rw [h]
    refine ⟨rfl, rfl, ?_, ?_⟩
    · intro hnn
      show (if lp.amount < 0 then (-1 : Int) else 1) * 2 ^ 40 = 2 ^ 40
      rw [if_neg (not_lt.mpr hnn), one_mul]
    · intro hneg
      show (if lp.amount < 0 then (-1 : Int) else 1) * 2 ^ 40 = -(2 ^ 40)
      rw [if_pos hneg]
      ring
  · intro hok
    simp [convert_labeled_price, hok]

/-- Witness for C8: the amount `2^41` fails the concrete range check and is
clamped to `2^40`; `-2^41` is clamped to `-2^40`. -/
theorem convert_labeled_price_clamps_witness :
    exCheckCurrencyAmount (2 ^ 41) = false ∧
    (convert_labeled_price exCheckCurrencyAmount ⟨"part", 2 ^ 41⟩).1.amount = 2 ^ 40 ∧
    (convert_labeled_price exCheckCurrencyAmount ⟨"part", -(2 ^ 41)⟩).1.amount = -(2 ^ 40) := by
  refine ⟨by decide, ?_, ?_⟩
  · exact ((convert_labeled_price_clamps exCheckCurrencyAmount ⟨"part", 2 ^ 41⟩).1
      (by decide)).2.2.1 (by decide)
  · exact ((convert_labeled_price_clamps exCheckCurrencyAmount ⟨"part", -(2 ^ 41)⟩).1
      (by decide)).2.2.2 (by decide)

/-- C10: `convert_invoice` sanitizes the tip fields: a negative or out-of-range
maximum tip amount becomes `0` (otherwise it is kept), every suggested tip amount
that is negative or out of range is removed, and the suggested list is truncated
to at most 4 entries, so the result always has a non-negative maximum tip and at
most 4 valid suggested tip amounts. -/
theorem convert_invoice_sanitizes_tips (check : Int → Bool) (invoice : WireInvoice) :
    0 ≤ (convert_invoice check invoice).max_tip_amount ∧
    (invoice.max_tip_amount < 0 ∨ check invoice.max_tip_amount = false →
      (convert_invoice check invoice).max_tip_amount = 0) ∧
    (0 ≤ invoice.max_tip_amount → check invoice.max_tip_amount = true →
      (convert_invoice check invoice).max_tip_amount = invoice.max_tip_amount) ∧
    (convert_invoice check invoice).suggested_tip_amounts =
      (invoice.suggested_tip_amounts.filter
        (fun amount => !(decide (amount < 0) || !check amount))).take 4 ∧
    (∀ a ∈ (convert_invoice check invoice).suggested_tip_amounts, 0 ≤ a ∧ check a = true) ∧
    (convert_invoice check invoice).suggested_tip_amounts.length ≤ 4 := by
  have hmax : (convert_invoice check invoice).max_tip_amount =
      if decide (invoice.max_tip_amount < 0) || !check invoice.max_tip_amount then 0
      else invoice.max_tip_amount := rfl
  have hsug : (convert_invoice check invoice).suggested_tip_amounts =
      (invoice.suggested_tip_amounts.filter
        (fun amount => !(decide (amount < 0) || !check amount))).take 4 := rfl
  refine ⟨?_, ?_, ?_, hsug, ?_, ?_⟩
  · rw [hmax]
    cases hb : (decide (invoice.max_tip_amount < 0) || !check invoice.max_tip_amount) with
    | true => simp
    | false =>
      rcases Bool.or_eq_false_iff.mp hb with ⟨h1, _⟩
      simp only [Bool.false_eq_true, if_false]
      exact not_lt.mp (of_decide_eq_false h1)
  · intro h
    rw [hmax]
    have hb : (decide (invoice.max_tip_amount < 0) || !check invoice.max_tip_amount) = true := by
      rcases h with h | h
      · simp [h]
      · simp [h]
    rw [hb, if_pos rfl]
  · intro h1 h2
    rw [hmax]
    have hb : (decide (invoice.max_tip_amount < 0) || !check invoice.max_tip_amount) = false := by
      simp [h2, not_lt.mpr h1]
    rw [hb]
    simp
  · intro a ha
    rw [hsug] at ha
    have hp := List.of_mem_filter (List.mem_of_mem_take ha)
    simpa using hp
  · rw [hsug]
    exact List.length_take_le 4 _

/-- A concrete wire invoice used to exercise `convert_invoice`. -/
def exWireInvoice : WireInvoice :=
  { currency := "USD"
    prices := [⟨"part", 100⟩]
    max_tip_amount := -3
    suggested_tip_amounts := [5, -1, 2 ^ 41, 7, 9, 11, 13]
    recurring_terms_url := ""
    is_test := false
    name_requested := false
    phone_requested := false
    email_requested := false
    shipping_address_requested := false
    phone_to_provider := false
    email_to_provider := false
    is_flexible := false }

/-- Witness for C10: on a concrete invoice with a negative maximum tip and seven
suggested tips (two invalid), the result has maximum tip `0` and the four valid
suggested tips that come first. -/
theorem convert_invoice_sanitizes_tips_witness :
    (convert_invoice exCheckCurrencyAmount exWireInvoice).max_tip_amount = 0 ∧
    (convert_invoice exCheckCurrencyAmount exWireInvoice).suggested_tip_amounts =
      [5, 7, 9, 11] := by
  constructor
  · exact (convert_invoice_sanitizes_tips exCheckCurrencyAmount exWireInvoice).2.1
      (Or.inl (by decide))
  · have h := (convert_invoice_sanitizes_tips exCheckCurrencyAmount exWireInvoice).2.2.2.1
    rw [h]
    decide

/-! ### Order info and shipping query validation (`Payments.cpp`) -/

/-- `td_api::address`: the shipping address fields checked by `validate_order_info`. -/
structure Address where
  country_code : String
  state : String
  city : String
  street_line1 : String
  street_line2 : String
  postal_code : String
deriving DecidableEq

/-- `td_api::orderInfo`: user-supplied order information. -/
structure OrderInfo where
  name : String
  phone_number : String
  email_address : String
  shipping_address : Option Address
deriving DecidableEq

/-- The outcome of an operation that either rejects its promise with a structured
error (`promise.set_error(Status::Error(code, message))`) or hands a payload to a
query that is sent to the server. -/
inductive PromiseOutcome (α : Type) where
  | rejected (code : Nat) (message : String)
  | sent (payload : α)
deriving DecidableEq

/-- `validate_order_info` (Payments.cpp, lines 760-797).  `clean_input_string` is
the external "clean for transmission" check, passed as a parameter.  `r_invoice`
is the result of `get_input_invoice_info`; `TRY_RESULT_PROMISE` rejects the
promise with its error.  On success the payload is handed to
`ValidateRequestedInfoQuery`. -/
def validate_order_info (clean_input_string : String → Bool)
    (r_invoice : Except (Nat × String) Unit) (order_info : Option OrderInfo)
    (allow_save : Bool) : PromiseOutcome (Option OrderInfo × Bool) :=
  match r_invoice with
  | .error e => .rejected e.1 e.2
  | .ok _ =>
    match order_info with
    | none => .sent (none, allow_save)
    | some info =>
      if !clean_input_string info.name then
        .rejected 400 "Name must be encoded in UTF-8"
      else if !clean_input_string info.phone_number then
        .rejected 400 "Phone number must be encoded in UTF-8"
      else if !clean_input_string info.email_address then
        .rejected 400 "Email address must be encoded in UTF-8"
      else
        match info.shipping_address with
        | none => .sent (some info, allow_save)
        | some a =>
          if !clean_input_string a.country_code then
            .rejected 400 "Country code must be encoded in UTF-8"
          else if !clean_input_string a.state then
            .rejected 400 "State must be encoded in UTF-8"
          else if !clean_input_string a.city then
            .rejected 400 "City must be encoded in UTF-8"
          else if !clean_input_string a.street_line1 then
            .rejected 400 "Street address must be encoded in UTF-8"
          else if !clean_input_string a.street_line2 then
            .rejected 400 "Street address must be encoded in UTF-8"
          else if !clean_input_string a.postal_code then
            .rejected 400 "Postal code must be encoded in UTF-8"
          else .sent (some info, allow_save)

/-- The user-supplied string fields of an order info, in the order
`validate_order_info` checks them, each paired with the field name its
error message starts with. -/
def order_info_fields (info : OrderInfo) : List (String × String) :=
  [("Name", info.name), ("Phone number", info.phone_number),
   ("Email address", info.email_address)] ++
  (match info.shipping_address with
   | none => []
   | some a =>
     [("Country code", a.country_code), ("State", a.state), ("City", a.city),
      ("Street address", a.street_line1), ("Street address", a.street_line2),
      ("Postal code", a.postal_code)])

/-- `td_api::shippingOption`: identifier, title and price parts (each part may be
null on the wire, hence `Option`). -/
structure ShippingOption where
  id : String
  title : String
  price_parts : List (Option LabeledPrice)
deriving DecidableEq

/-- The inner loop of `answer_shipping_query` converting the price parts of one
shipping option (Payments.cpp, lines 717-730). -/
def convert_price_parts (clean_input_string : String → Bool)
    (check_currency_amount : Int → Bool) :
    List (Option LabeledPrice) → Except (Nat × String) (List LabeledPrice)
  | [] => .ok []
  | none :: _ => .error (400, "Shipping option price part must be non-empty")
  | some p :: rest =>
    if !clean_input_string p.label then
      .error (400, "Shipping option price part label must be encoded in UTF-8")
    else if !check_currency_amount p.amount then
      .error (400, "Too big amount of the currency specified")
    else
      (convert_price_parts clean_input_string check_currency_amount rest).map
        (fun l => p :: l)

/-- The outer loop of `answer_shipping_query` (Payments.cpp, lines 705-734):
converts each shipping option, rejecting on a null option, an unclean identifier
or title, or a bad price part. -/
def convert_shipping_options (clean_input_string : String → Bool)
    (check_currency_amount : Int → Bool) :
    List (Option ShippingOption) →
      Except (Nat × String) (List (String × String × List LabeledPrice))
  | [] => .ok []
  | none :: _ => .error (400, "Shipping option must be non-empty")
  | some o :: rest =>
    if !clean_input_string o.id then
      .error (400, "Shipping option identifier must be encoded in UTF-8")
    else if !clean_input_string o.title then
      .error (400, "Shipping option title must be encoded in UTF-8")
    else
      match convert_price_parts clean_input_string check_currency_amount o.price_parts with
      | .error e => .error e
      | .ok prices =>
        (convert_shipping_options clean_input_string check_currency_amount rest).map
          (fun l => (o.id, o.title, prices) :: l)

/-- `answer_shipping_query` (Payments.cpp, lines 701-737): on a conversion failure
the promise is rejected; otherwise the converted options are handed to
`SetBotShippingAnswerQuery`. -/
def answer_shipping_query (clean_input_string : String → Bool)
    (check_currency_amount : Int → Bool) (shipping_query_id : Nat)
    (shipping_options : List (Option ShippingOption)) (error_message : String) :
    PromiseOutcome (Nat × String × List (String × String × List LabeledPrice)) :=
  match convert_shipping_options clean_input_string check_currency_amount
      shipping_options with
  | .error e => .rejected e.1 e.2
  | .ok options => .sent (shipping_query_id, error_message, options)

/-- A present shipping option whose identifier, title, or some present price-part
label fails the clean-for-transmission check. -/
def shipping_string_fails (clean_input_string : String → Bool)
    (x : Option ShippingOption) : Bool :=
  match x with
  | none => false
  | some o =>
    !clean_input_string o.id || !clean_input_string o.title ||
      o.price_parts.any (fun y =>
        match y with
        | none => false
        | some p => !clean_input_string p.label)

/-- Every error produced by `convert_price_parts` carries code 400. -/
theorem convert_price_parts_error_code (clean : String → Bool) (check : Int → Bool) :
    ∀ (parts : List (Option LabeledPrice)) (e : Nat × String),
      convert_price_parts clean check parts = .error e → e.1 = 400 := by
  intro parts
  induction parts with
  | nil => intro e he; simp [convert_price_parts] at he
  | cons x rest ih =>
    intro e he
    match x with
    | none =>
      simp only [convert_price_parts] at he
      cases he
      rfl
    | some p =>
      simp only [convert_price_parts] at he
      by_cases h1 : clean p.label
      · by_cases h2 : check p.amount
        · rw [if_neg (by simp [h1]), if_neg (by simp [h2])] at he
          cases hr : convert_price_parts clean check rest with
          | error e0 =>
            rw [hr] at he
            simp only [Except.map] at he
            cases he
            exact ih _ hr
          | ok l => rw [hr] at he; simp [Except.map] at he
        · rw [if_neg (by simp [h1]), if_pos (by simp [h2])] at he
          cases he
          rfl
      · rw [if_pos (by simp [h1])] at he
        cases he
        rfl

/-- If `convert_price_parts` succeeds, every present price-part label passed the
clean check. -/
theorem convert_price_parts_ok_clean (clean : String → Bool) (check : Int → Bool) :
    ∀ (parts : List (Option LabeledPrice)) (l : List LabeledPrice),
      convert_price_parts clean check parts = .ok l →
      ∀ p : LabeledPrice, some p ∈ parts → clean p.label = true := by
  intro parts
  induction parts with
  | nil => intro l _ p hp; simp at hp
  | cons x rest ih =>
    intro l hl p hp
    match x with
    | none => simp [convert_price_parts] at hl
    | some q =>
      simp only [convert_price_parts] at hl
      by_cases h1 : clean q.label
      · by_cases h2 : check q.amount
        · rw [if_neg (by simp [h1]), if_neg (by simp [h2])] at hl
          cases hr : convert_price_parts clean check rest with
          | error e0 => rw [hr] at hl; simp [Except.map] at hl
          | ok l0 =>
            rcases List.mem_cons.mp hp with hp1 | hp2
            · cases hp1
              exact h1
            · exact ih l0 hr p hp2
        · rw [if_neg (by simp [h1]), if_pos (by simp [h2])] at hl
          cases hl
      · rw [if_pos (by simp [h1])] at hl
        cases hl

/-- Every error produced by `convert_shipping_options` carries code 400. -/
theorem convert_shipping_options_error_code (clean : String → Bool)
    (check : Int → Bool) :
    ∀ (opts : List (Option ShippingOption)) (e : Nat × String),
      convert_shipping_options clean check opts = .error e → e.1 = 400 := by
  intro opts
  induction opts with
  | nil => intro e he; simp [convert_shipping_options] at he
  | cons x rest ih =>
    intro e he
    match x with
    | none =>
      simp only [convert_shipping_options] at he
      cases he
      rfl
    | some o =>
      simp only [convert_shipping_options] at he
      by_cases h1 : clean o.id
      · by_cases h2 : clean o.title
        · rw [if_neg (by simp [h1]), if_neg (by simp [h2])] at he
          cases hp : convert_price_parts clean check o.price_parts with
          | error e0 =>
            rw [hp] at he
            cases he
            exact convert_price_parts_error_code clean check o.price_parts _ hp
          | ok prices =>
            rw [hp] at he
            cases hr : convert_shipping_options clean check rest with
            | error e0 =>
              rw [hr] at he
              simp only [Except.map] at he
              cases he
              exact ih _ hr
            | ok l => rw [hr] at he; simp [Except.map] at he
        · rw [if_neg (by simp [h1]), if_pos (by simp [h2])] at he
          cases he
          rfl
      · rw [if_pos (by simp [h1])] at he
        cases he
        rfl

/-- If `convert_shipping_options` succeeds, no present option has a failing
string field. -/
theorem convert_shipping_options_ok_clean (clean : String → Bool)
    (check : Int → Bool) :
    ∀ (opts : List (Option ShippingOption))
      (l : List (String × String × List LabeledPrice)),
      convert_shipping_options clean check opts = .ok l →
      ∀ x ∈ opts, shipping_string_fails clean x = false := by
  intro opts
  induction opts with
  | nil => intro l _ x hx; simp at hx
  | cons y rest ih =>
    intro l hl x hx
    match y with
    | none => simp [convert_shipping_options] at hl
    | some o =>
      simp only [convert_shipping_options] at hl
      by_cases h1 : clean o.id
      · by_cases h2 : clean o.title
        · rw [if_neg (by simp [h1]), if_neg (by simp [h2])] at hl
          cases hp : convert_price_parts clean check o.price_parts with
          | error e0 => rw [hp] at hl; cases hl
          | ok prices =>
            rw [hp] at hl
            cases hr : convert_shipping_options clean check rest with
            | error e0 => rw [hr] at hl; simp [Except.map] at hl
            | ok l0 =>
              rcases List.mem_cons.mp hx with hx1 | hx2
              · subst hx1
                simp only [shipping_string_fails, h1, h2, Bool.not_true,
                  Bool.false_or]
                rw [List.any_eq_false]
                intro z hz
                match z with
                | none => simp
                | some p =>
                  have := convert_price_parts_ok_clean clean check
                    o.price_parts prices hp p hz
                  simp [this]
              · exact ih l0 hr x hx2
        · rw [if_neg (by simp [h1]), if_pos (by simp [h2])] at hl
          cases hl
      · rw [if_pos (by simp [h1])] at hl
        cases hl

/-- C9: with a non-null order info whose fields pass `get_input_invoice_info`,
if any user-supplied string field (name, phone number, email address, or any
shipping-address field) fails the clean-for-transmission check, then
`validate_order_info` rejects the promise with a 400 error naming an offending
field and sends no query; and `answer_shipping_query` rejects with a 400 error
whenever any present shipping option has an identifier, title, or price-part
label failing the check. -/
theorem payments_string_validation (clean : String → Bool) (check : Int → Bool) :
    (∀ (info : OrderInfo) (allow_save : Bool),
      (∃ p ∈ order_info_fields info, clean p.2 = false) →
      ∃ p ∈ order_info_fields info, clean p.2 = false ∧
        validate_order_info clean (.ok ()) (some info) allow_save =
          .rejected 400 (p.1 ++ " must be encoded in UTF-8")) ∧
    (∀ (qid : Nat) (opts : List (Option ShippingOption)) (err : String),
      (∃ x ∈ opts, shipping_string_fails clean x = true) →
      ∃ m, answer_shipping_query clean check qid opts err = .rejected 400 m) := by
  constructor
  · intro info allow_save hex
    by_cases h1 : clean info.name
    case neg =>
      refine ⟨("Name", info.name), by simp [order_info_fields], by simpa using h1, ?_⟩
      simp [validate_order_info, h1]
    all_goals by_cases h2 : clean info.phone_number
    case neg =>
      refine ⟨("Phone number", info.phone_number), by simp [order_info_fields],
        by simpa using h2, ?_⟩
      simp [validate_order_info, h1, h2]
    by_cases h3 : clean info.email_address
    case neg =>
      refine ⟨("Email address", info.email_address), by simp [order_info_fields],
        by simpa using h3, ?_⟩
      simp [validate_order_info, h1, h2, h3]
    rcases hsa : info.shipping_address with _ | a
    · exfalso
      rcases hex with ⟨p, hp, hpc⟩
      have hp' : p = ("Name", info.name) ∨ p = ("Phone number", info.phone_number) ∨
          p = ("Email address", info.email_address) := by
        simpa [order_info_fields, hsa] using hp
      rcases hp' with rfl | rfl | rfl <;> simp_all
    · by_cases h4 : clean a.country_code
      case neg =>
        refine ⟨("Country code", a.country_code),
          by simp [order_info_fields, hsa], by simpa using h4, ?_⟩
        simp [validate_order_info, h1, h2, h3, hsa, h4]
      by_cases h5 : clean a.state
      case neg =>
        refine ⟨("State", a.state), by simp [order_info_fields, hsa],
          by simpa using h5, ?_⟩
        simp [validate_order_info, h1, h2, h3, hsa, h4, h5]
      by_cases h6 : clean a.city
      case neg =>
        refine ⟨("City", a.city), by simp [order_info_fields, hsa],
          by simpa using h6, ?_⟩
        simp [validate_order_info, h1, h2, h3, hsa, h4, h5, h6]
      by_cases h7 : clean a.street_line1
      case neg =>
        refine ⟨("Street address", a.street_line1),
          by simp [order_info_fields, hsa], by simpa using h7, ?_⟩
        simp [validate_order_info, h1, h2, h3, hsa, h4, h5, h6, h7]
      by_cases h8 : clean a.street_line2
      case neg =>
        refine ⟨("Street address", a.street_line2),
          by simp [order_info_fields, hsa], by simpa using h8, ?_⟩
        simp [validate_order_info, h1, h2, h3, hsa, h4, h5, h6, h7, h8]
      by_cases h9 : clean a.postal_code
      case neg =>
        refine ⟨("Postal code", a.postal_code),
          by simp [order_info_fields, hsa], by simpa using h9, ?_⟩
        simp [validate_order_info, h1, h2, h3, hsa, h4, h5, h6, h7, h8, h9]
      exfalso
      rcases hex with ⟨p, hp, hpc⟩
      have hp' : p = ("Name", info.name) ∨ p = ("Phone number", info.phone_number) ∨
          p = ("Email address", info.email_address) ∨ p = ("Country code", a.country_code) ∨
          p = ("State", a.state) ∨ p = ("City", a.city) ∨
          p = ("Street address", a.street_line1) ∨ p = ("Street address", a.street_line2) ∨
          p = ("Postal code", a.postal_code) := by
        simpa [order_info_fields, hsa] using hp
      rcases hp' with rfl | rfl | rfl | rfl | rfl | rfl | rfl | rfl | rfl <;> simp_all
  · intro qid opts err hex
    cases hres : convert_shipping_options clean check opts with
    | error e =>
      refine ⟨e.2, ?_⟩
      have h400 := convert_shipping_options_error_code clean check opts e hres
      simp [answer_shipping_query, hres, h400]
    | ok l =>
      exfalso
      rcases hex with ⟨x, hx, hbad⟩
      have := convert_shipping_options_ok_clean clean check opts l hres x hx
      rw [this] at hbad
      cases hbad

/-- A concrete clean-for-transmission check used for witnesses: every string
except `"bad"` is clean. -/
def exClean (s : String) : Bool := s != "bad"

/-- A concrete order info whose phone number fails `exClean`. -/
def exOrderInfo : OrderInfo :=
  { name := "Alice", phone_number := "bad", email_address := "a@b.c",
    shipping_address := none }

/-- A concrete shipping option whose title fails `exClean`. -/
def exShippingOption : ShippingOption :=
  { id := "opt1", title := "bad", price_parts := [some ⟨"Shipping", 5⟩] }

/-- Witness for C9 at concrete inputs: the order info with an unclean phone
number is rejected with a 400 error naming an offending field, and the shipping
option with an unclean title is rejected with a 400 error. -/
theorem payments_string_validation_witness :
    (∃ p ∈ order_info_fields exOrderInfo, exClean p.2 = false ∧
      validate_order_info exClean (.ok ()) (some exOrderInfo) true =
        .rejected 400 (p.1 ++ " must be encoded in UTF-8")) ∧
    (∃ m, answer_shipping_query exClean exCheckCurrencyAmount 7
        [some exShippingOption] "" = .rejected 400 m) :=
  ⟨(payments_string_validation exClean exCheckCurrencyAmount).1 exOrderInfo true
      (by decide),
   (payments_string_validation exClean exCheckCurrencyAmount).2 7
      [some exShippingOption] "" (by decide)⟩

/-! ### Video notes: data model (`VideoNotesManager.h`) -/

/-- `td::Dimensions`: width and height. -/
structure Dimensions where
  width : Nat
  height : Nat
deriving DecidableEq

/-- `td::PhotoSize`: a thumbnail, holding its own file handle plus value
metadata. -/
structure PhotoSize where
  file_id : FileId
  dimensions : Dimensions
  size : Nat
deriving DecidableEq

/-- `td::FullMessageId`: an owning message context.  `is_scheduled` and
`is_server` reflect `MessageId::is_scheduled()` / `MessageId::is_server()`,
which external code computes from the identifier's bit layout. -/
structure FullMessageId where
  dialog_id : Int
  message_id : Nat
  is_scheduled : Bool
  is_server : Bool
deriving DecidableEq

/-- Modelled from the spec: `td::TranscriptionInfo`
(td/telegram/TranscriptionInfo.h/.cpp) is repository code that is not among the
provided sources.  Per spec section 3 (*TranscriptionState*) it holds the
correlation id assigned by the remote service, the lifecycle phase (`Final` is
`is_transcribed = true`), the latest text, and the set of pending promises
awaiting the next transition; promises are identified here by tokens. -/
structure TranscriptionInfo where
  transcription_id : Nat
  is_transcribed : Bool
  text : String
  pending : List Nat
deriving DecidableEq

/-- Modelled from the spec: `TranscriptionInfo::on_final_transcription` — on a
push carrying `pending=false` the state becomes `Final(text)` and all pending
waiters are handed back to the caller to be fulfilled (spec section 4.4). -/
def TranscriptionInfo.on_final_transcription (info : TranscriptionInfo)
    (text : String) (transcription_id : Nat) : List Nat × TranscriptionInfo :=
  (info.pending,
   { transcription_id := transcription_id, is_transcribed := true, text := text,
     pending := [] })

/-- Modelled from the spec: `TranscriptionInfo::on_failed_transcription` — on an
error all pending waiters are handed back to be rejected and the state becomes
`Failed`, which is retriable, i.e. a reset request state (spec section 4.4). -/
def TranscriptionInfo.on_failed_transcription (info : TranscriptionInfo) :
    List Nat × TranscriptionInfo :=
  (info.pending,
   { transcription_id := 0, is_transcribed := false, text := "", pending := [] })

/-- Modelled from the spec: `TranscriptionInfo::on_partial_transcription` — a
push carrying `pending=true` stores the partial text and correlation id and
reports whether the text changed (spec section 4.4). -/
def TranscriptionInfo.onPartialTranscription (info : TranscriptionInfo)
    (text : String) (transcription_id : Nat) : TranscriptionInfo × Bool :=
  ({ info with text := text, transcription_id := transcription_id },
   info.text != text)

/-- Modelled from the spec: `TranscriptionInfo::copy_if_transcribed` — when an
entity is duplicated its enrichment state is independently copied; only a
completed (`Final`) transcription is copied, pending waiters are not (spec
sections 4.1 `duplicate` and 3 *TranscriptionState*). -/
def TranscriptionInfo.copy_if_transcribed (info : Option TranscriptionInfo) :
    Option TranscriptionInfo :=
  match info with
  | none => none
  | some i => if i.is_transcribed then some { i with pending := [] } else none

/-- Modelled from the spec: `TranscriptionInfo::update_from` — a later
observation replaces the stored enrichment exactly when the new observation is a
completed transcription and the stored one is not ("once an entity has richer
enrichment a later bare observation never regresses it", spec section 4.1);
returns the new state and whether the update completed a transcription. -/
def TranscriptionInfo.update_from (old new_info : Option TranscriptionInfo) :
    Option TranscriptionInfo × Bool :=
  match new_info with
  | none => (old, false)
  | some n =>
    if n.is_transcribed &&
        !(match old with
          | none => false
          | some o => o.is_transcribed) then
      (some n, true)
    else
      (old, false)

/-- `VideoNotesManager::VideoNote` (VideoNotesManager.h): the cached entity. -/
structure VideoNote where
  file_id : FileId
  duration : Int
  dimensions : Dimensions
  waveform : String
  minithumbnail : String
  thumbnail : PhotoSize
  transcription_info : Option TranscriptionInfo
deriving DecidableEq

/-- Modelled from the spec: the resource subsystem (`td::FileManager`, an
external collaborator per spec section 6).  It is represented by the handles it
has minted so far (every minted handle is below `next_file_id`) and by logs of
the `duplicate` and `merge` operations this core has invoked on it. -/
structure FileManager where
  next_file_id : Nat
  dup_calls : List (FileId × FileId)
  merge_calls : List (FileId × FileId)
deriving DecidableEq

/-- Modelled from the spec: `FileManager::dup_file_id` mints a fresh handle for
a valid source handle and records the duplication `(source, minted)`; an empty
source handle stays empty. -/
def FileManager.dup_file_id (fm : FileManager) (file_id : FileId) :
    FileId × FileManager :=
  if file_id = 0 then (0, fm)
  else
    (fm.next_file_id,
     { fm with next_file_id := fm.next_file_id + 1,
               dup_calls := (file_id, fm.next_file_id) :: fm.dup_calls })

/-- Modelled from the spec: `FileManager::merge` records the entity-level merge
request `(new_handle, old_handle)` issued by this core. -/
def FileManager.merge (fm : FileManager) (new_id old_id : FileId) : FileManager :=
  { fm with merge_calls := (new_id, old_id) :: fm.merge_calls }

/-- The mutable state reachable from a `VideoNotesManager`: the process close
flag (`G()->close_flag()`), the entity cache `video_notes_`, the back-reference
registry (`video_note_messages_`, `message_video_notes_`), and the external
file manager. -/
structure VideoNotesManagerState where
  close_flag : Bool
  video_notes : FileId → Option VideoNote
  video_note_messages : FileId → Option (List FullMessageId)
  message_video_notes : FullMessageId → Option FileId
  file_manager : FileManager

/-- Pointwise update of a keyed map. -/
def updateMap {α β : Type} [DecidableEq α] (m : α → Option β) (k : α)
    (v : Option β) : α → Option β :=
  fun x => if x = k then v else m x

/-- Reading an updated map at the updated key yields the new value. -/
theorem updateMap_self {α β : Type} [DecidableEq α] (m : α → Option β) (k : α)
    (v : Option β) : updateMap m k v k = v := by
  simp [updateMap]

/-- Reading an updated map at another key is unchanged. -/
theorem updateMap_other {α β : Type} [DecidableEq α] (m : α → Option β) (k : α)
    (v : Option β) (x : α) (h : x ≠ k) : updateMap m k v x = m x := by
  simp [updateMap, h]

/-! ### Video notes: operations (`VideoNotesManager.cpp`) -/

/-- `VideoNotesManager::on_video_note_transcription_updated` (lines 265-272):
the owning contexts that receive the "content changed" notification
(`MessagesManager::on_external_update_message_content`). -/
def on_video_note_transcription_updated (s : VideoNotesManagerState)
    (file_id : FileId) : List FullMessageId :=
  match s.video_note_messages file_id with
  | none => []
  | some l => l

/-- `VideoNotesManager::on_video_note_transcription_completed` (lines 274-281):
the owning contexts that receive the "content finalized" notification
(`MessagesManager::on_update_message_content`). -/
def on_video_note_transcription_completed (s : VideoNotesManagerState)
    (file_id : FileId) : List FullMessageId :=
  match s.video_note_messages file_id with
  | none => []
  | some l => l

/-- `VideoNotesManager::on_get_video_note` (lines 63-96).  Returns `none` on a
fatal `CHECK` failure, otherwise the new state, the handle of the (possibly
pre-existing) cache entry, and the owning contexts notified as finalized when
the update completed a transcription. -/
def on_get_video_note (s : VideoNotesManagerState) (new_video_note : VideoNote)
    (replace : Bool) :
    Option (VideoNotesManagerState × FileId × List FullMessageId) :=
  let file_id := new_video_note.file_id
  if ¬FileId.is_valid file_id then none
  else
    match s.video_notes file_id with
    | none =>
      some ({ s with
                video_notes := updateMap s.video_notes file_id (some new_video_note) },
            file_id, [])
    | some v =>
      if replace then
        if v.file_id ≠ new_video_note.file_id then none
        else
          let v1 :=
            if v.duration ≠ new_video_note.duration ∨
                v.dimensions ≠ new_video_note.dimensions ∨
                v.waveform ≠ new_video_note.waveform then
              { v with duration := new_video_note.duration,
                       dimensions := new_video_note.dimensions,
                       waveform := new_video_note.waveform }
            else v
          let v2 :=
            if v1.minithumbnail ≠ new_video_note.minithumbnail then
              { v1 with minithumbnail := new_video_note.minithumbnail }
            else v1
          let v3 :=
            if v2.thumbnail ≠ new_video_note.thumbnail then
              { v2 with thumbnail := new_video_note.thumbnail }
            else v2
          let r := TranscriptionInfo.update_from v3.transcription_info
            new_video_note.transcription_info
          let v4 := { v3 with transcription_info := r.1 }
          some ({ s with
                    video_notes := updateMap s.video_notes file_id (some v4) },
                file_id,
                if r.2 then on_video_note_transcription_completed s file_id else [])
      else
        some (s, file_id, [])

/-- `VideoNotesManager::dup_video_note` (lines 118-134).  Fatal (`none`) when
the source is absent or the destination already present; otherwise copies all
value fields, duplicates the thumbnail's file handle through the file manager,
and copies the enrichment state via `copy_if_transcribed`. -/
def dup_video_note (s : VideoNotesManagerState) (new_id old_id : FileId) :
    Option (VideoNotesManagerState × FileId) :=
  match s.video_notes old_id with
  | none => none
  | some old_video_note =>
    match s.video_notes new_id with
    | some _ => none
    | none =>
      let r := s.file_manager.dup_file_id old_video_note.thumbnail.file_id
      let new_video_note : VideoNote :=
        { file_id := new_id
          duration := old_video_note.duration
          dimensions := old_video_note.dimensions
          waveform := old_video_note.waveform
          minithumbnail := old_video_note.minithumbnail
          thumbnail := { old_video_note.thumbnail with file_id := r.1 }
          transcription_info :=
            TranscriptionInfo.copy_if_transcribed old_video_note.transcription_info }
      some ({ s with
                video_notes := updateMap s.video_notes new_id (some new_video_note),
                file_manager := r.2 }, new_id)

/-- `VideoNotesManager::merge_video_notes` (lines 136-153).  Fatal (`none`) when
a handle is invalid, the handles coincide, or the old entry is absent.  When the
new entry is absent the merge degrades to `dup_video_note`.  When both entries
are present and the thumbnails differ, the pairwise thumbnail merge is commented
out in the source (line 149), so nothing happens to the thumbnails.  In either
surviving case the entity-level `FileManager::merge(new_id, old_id)` is
invoked. -/
def merge_video_notes (s : VideoNotesManagerState) (new_id old_id : FileId) :
    Option VideoNotesManagerState :=
  if ¬(FileId.is_valid old_id ∧ FileId.is_valid new_id) then none
  else if new_id = old_id then none
  else
    match s.video_notes old_id with
    | none => none
    | some _ =>
      match s.video_notes new_id with
      | none =>
        match dup_video_note s new_id old_id with
        | none => none
        | some r =>
          some { r.1 with file_manager := (r.1).file_manager.merge new_id old_id }
      | some _ =>
        some { s with file_manager := s.file_manager.merge new_id old_id }

/-- `VideoNotesManager::register_video_note` (lines 173-185).  `is_bot` reflects
`AuthManager::is_bot()` (external).  Scheduled or non-server contexts, and all
contexts in bot mode, are a silent no-op.  Returns `none` when a fatal `CHECK` /
`LOG_CHECK` fails (invalid handle, pair already registered, or context already
bound). -/
def register_video_note (is_bot : Bool) (s : VideoNotesManagerState)
    (video_note_file_id : FileId) (full_message_id : FullMessageId) :
    Option VideoNotesManagerState :=
  if full_message_id.is_scheduled || !full_message_id.is_server || is_bot then
    some s
  else if ¬FileId.is_valid video_note_file_id then none
  else
    let message_ids :=
      match s.video_note_messages video_note_file_id with
      | none => []
      | some l => l
    if full_message_id ∈ message_ids then none
    else
      match s.message_video_notes full_message_id with
      | some _ => none
      | none =>
        some { s with
          video_note_messages :=
            updateMap s.video_note_messages video_note_file_id
              (some (full_message_id :: message_ids))
          message_video_notes :=
            updateMap s.message_video_notes full_message_id
              (some video_note_file_id) }

/-- `VideoNotesManager::unregister_video_note` (lines 187-203).  Fatal (`none`)
when the pair is absent; dropping the last context for a handle erases the
handle's entry entirely. -/
def unregister_video_note (is_bot : Bool) (s : VideoNotesManagerState)
    (video_note_file_id : FileId) (full_message_id : FullMessageId) :
    Option VideoNotesManagerState :=
  if full_message_id.is_scheduled || !full_message_id.is_server || is_bot then
    some s
  else if ¬FileId.is_valid video_note_file_id then none
  else
    let message_ids :=
      match s.video_note_messages video_note_file_id with
      | none => []
      | some l => l
    if full_message_id ∈ message_ids then
      let remaining := message_ids.erase full_message_id
      match s.message_video_notes full_message_id with
      | none => none
      | some _ =>
        some { s with
          video_note_messages :=
            updateMap s.video_note_messages video_note_file_id
              (if remaining.isEmpty then none else some remaining)
          message_video_notes :=
            updateMap s.message_video_notes full_message_id none }
    else none

/-- A structured error (`td::Status`). -/
structure TdError where
  code : Nat
  message : String
deriving DecidableEq

/-- `telegram_api::updateTranscribedAudio`: a transcription push carrying a
correlation id, the pending flag and the (partial or final) text. -/
structure TranscribedAudioUpdate where
  transcription_id : Nat
  pending : Bool
  text : String
deriving DecidableEq

/-- The externally visible effects of one transcription update: promises
fulfilled (`set_promises`), promises rejected with an error (`fail_promises`),
owning contexts notified as finalized (`on_update_message_content`) or as
changed (`on_external_update_message_content`), and a possible subscription to
the push channel of a correlation id
(`subscribe_to_transcribed_audio_updates`). -/
structure UpdateEffects where
  fulfilled : List Nat
  rejected : List (Nat × TdError)
  finalized_contexts : List FullMessageId
  changed_contexts : List FullMessageId
  subscribed : Option Nat
deriving DecidableEq

/-- The empty effect record. -/
def UpdateEffects.empty : UpdateEffects :=
  { fulfilled := [], rejected := [], finalized_contexts := [],
    changed_contexts := [], subscribed := none }

/-- `VideoNotesManager::on_transcribed_audio_update` (lines 225-263): handles a
transcription result or error for the video note at `file_id`.  Returns `none`
on a fatal `CHECK` failure, otherwise the new state and the produced effects.
When the close flag is set the handler returns immediately with no effects. -/
def on_transcribed_audio_update (s : VideoNotesManagerState) (file_id : FileId)
    (is_initial : Bool) (r_update : Except TdError TranscribedAudioUpdate) :
    Option (VideoNotesManagerState × UpdateEffects) :=
  if s.close_flag then some (s, UpdateEffects.empty)
  else
    match s.video_notes file_id with
    | none => none
    | some video_note =>
      match video_note.transcription_info with
      | none => none
      | some info =>
        match r_update with
        | .error e =>
          let r := info.on_failed_transcription
          some ({ s with video_notes := (updateMap s.video_notes file_id
                    (some { video_note with transcription_info := some r.2 })) },
                { UpdateEffects.empty with
                    rejected := r.1.map (fun p => (p, e)),
                    changed_contexts := on_video_note_transcription_updated s file_id })
        | .ok u =>
          if !u.pending then
            let r := info.on_final_transcription u.text u.transcription_id
            some ({ s with video_notes := (updateMap s.video_notes file_id
                      (some { video_note with transcription_info := some r.2 })) },
                  { UpdateEffects.empty with
                      fulfilled := r.1,
                      finalized_contexts :=
                        on_video_note_transcription_completed s file_id })
          else
            let r := info.onPartialTranscription u.text u.transcription_id
            some ({ s with video_notes := (updateMap s.video_notes file_id
                      (some { video_note with transcription_info := some r.1 })) },
                  { UpdateEffects.empty with
                      changed_contexts :=
                        if r.2 then on_video_note_transcription_updated s file_id
                        else [],
                      subscribed :=
                        if is_initial then some u.transcription_id else none })

/-! ### Theorems about the video-note manager -/

/-- C4: a transcription update (result or error) arriving after process
shutdown has begun (`close_flag` set) is ignored: the handler returns
immediately and the state — entity cache, back-reference registry, transcription
states, file manager — is completely unchanged, with no effects produced. -/
theorem late_update_after_shutdown_ignored (s : VideoNotesManagerState)
    (file_id : FileId) (is_initial : Bool)
    (r_update : Except TdError TranscribedAudioUpdate)
    (h : s.close_flag = true) :
    on_transcribed_audio_update s file_id is_initial r_update =
      some (s, UpdateEffects.empty) := by
  simp [on_transcribed_audio_update, h]

/-- A closed manager state used by witnesses: shutdown has begun. -/
def exClosedState : VideoNotesManagerState :=
  { close_flag := true
    video_notes := fun _ => none
    video_note_messages := fun _ => none
    message_video_notes := fun _ => none
    file_manager := { next_file_id := 1, dup_calls := [], merge_calls := [] } }

/-- Witness for C4: a late error reply on a closed manager changes nothing. -/
theorem late_update_after_shutdown_ignored_witness :
    exClosedState.close_flag = true ∧
    on_transcribed_audio_update exClosedState 5 true
        (.error { code := 500, message := "Request aborted" }) =
      some (exClosedState, UpdateEffects.empty) :=
  ⟨rfl, late_update_after_shutdown_ignored exClosedState 5 true
    (.error { code := 500, message := "Request aborted" }) rfl⟩

/-- C2: for a handle `H` already holding a cached video note,
`on_get_video_note` with `replace = false` leaves the whole cache map unchanged
(first writer wins) and returns `H`; with `replace = true` the cached entry's
duration afterwards equals the candidate's duration, and the returned handle is
again `H`. -/
theorem on_get_video_note_replace_semantics (s : VideoNotesManagerState)
    (v new_video_note : VideoNote) (H : FileId)
    (hvalid : FileId.is_valid H = true) (hv : s.video_notes H = some v)
    (hvid : v.file_id = H) (hnid : new_video_note.file_id = H) :
    on_get_video_note s new_video_note false = some (s, H, []) ∧
    (∃ s1 notified,
      on_get_video_note s new_video_note true = some (s1, H, notified) ∧
      ∃ v4, s1.video_notes H = some v4 ∧
        v4.duration = new_video_note.duration) := by
  constructor
  · simp [on_get_video_note, hnid, hvalid, hv]
  · have hfe : v.file_id = new_video_note.file_id := by rw [hvid, hnid]
    simp only [on_get_video_note, hnid, hvalid, hv, hfe, eq_self_iff_true,
      not_true, ne_eq, if_false, if_true, ite_true, ite_false]
    refine ⟨_, _, rfl, _, updateMap_self _ _ _, ?_⟩
    · simp only [apply_ite VideoNote.duration, ite_self]
      by_cases hd : v.duration ≠ new_video_note.duration ∨
          v.dimensions ≠ new_video_note.dimensions ∨
          v.waveform ≠ new_video_note.waveform
      · simp [hd]
      · push_neg at hd
        simp [hd.1]


/-- A cached video note with duration 5 at handle 7. -/
def exNote5 : VideoNote :=
  { file_id := 7, duration := 5, dimensions := { width := 240, height := 240 },
    waveform := "w", minithumbnail := "m",
    thumbnail := { file_id := 3, dimensions := { width := 10, height := 10 },
                   size := 100 },
    transcription_info := none }

/-- The same candidate with duration 9. -/
def exNote9 : VideoNote := { exNote5 with duration := 9 }

/-- A manager state caching `exNote5` at handle 7. -/
def exCacheState : VideoNotesManagerState :=
  { close_flag := false
    video_notes := fun f => if f = 7 then some exNote5 else none
    video_note_messages := fun _ => none
    message_video_notes := fun _ => none
    file_manager := { next_file_id := 100, dup_calls := [], merge_calls := [] } }

/-- Witness for C2: inserting duration 9 over the cached duration 5 with
`replace = false` leaves the cache unchanged; with `replace = true` the cached
duration becomes 9; both calls return handle 7. -/
theorem on_get_video_note_replace_semantics_witness :
    FileId.is_valid 7 = true ∧
    exCacheState.video_notes 7 = some exNote5 ∧
    on_get_video_note exCacheState exNote9 false = some (exCacheState, 7, []) ∧
    (∃ s1 notified,
      on_get_video_note exCacheState exNote9 true = some (s1, 7, notified) ∧
      ∃ v4, s1.video_notes 7 = some v4 ∧ v4.duration = exNote9.duration) := by
  have h := on_get_video_note_replace_semantics exCacheState exNote5 exNote9 7
    (by decide) rfl rfl rfl
  exact ⟨by decide, rfl, h.1, h.2⟩

/-- C3: with the close flag clear, for a cached video note with an initialized
transcription state, a push carrying `pending=false` fulfills exactly the
pending waiter promises (which are cleared from the stored state, so each
waiter is resolved exactly once), records the final text in the cached
transcription state, and delivers the finalized notification to every owning
message context currently registered for the handle; an error instead rejects
exactly the pending waiters with that error, so each waiter always receives one
terminal resolution. -/
theorem transcription_terminal_resolution (s : VideoNotesManagerState)
    (file_id : FileId) (is_initial : Bool) (video_note : VideoNote)
    (info : TranscriptionInfo)
    (hclose : s.close_flag = false)
    (hv : s.video_notes file_id = some video_note)
    (hinfo : video_note.transcription_info = some info) :
    (∀ u : TranscribedAudioUpdate, u.pending = false →
      ∃ s1, on_transcribed_audio_update s file_id is_initial (.ok u) =
        some (s1,
          { UpdateEffects.empty with
              fulfilled := info.pending,
              finalized_contexts :=
                on_video_note_transcription_completed s file_id }) ∧
        s1.video_notes file_id = some { video_note with transcription_info :=
          (some { transcription_id := u.transcription_id, is_transcribed := true,
                  text := u.text, pending := [] }) } ∧
        on_video_note_transcription_completed s file_id =
          (match s.video_note_messages file_id with
           | none => []
           | some l => l)) ∧
    (∀ e : TdError,
      ∃ s1, on_transcribed_audio_update s file_id is_initial (.error e) =
        some (s1,
          { UpdateEffects.empty with
              rejected := info.pending.map (fun p => (p, e)),
              changed_contexts :=
                on_video_note_transcription_updated s file_id }) ∧
        s1.video_notes file_id = some { video_note with transcription_info :=
          (some { transcription_id := 0, is_transcribed := false, text := "",
                  pending := [] }) }) := by
  constructor
  · intro u hu
    simp only [on_transcribed_audio_update, hclose, hv, hinfo, hu,
      TranscriptionInfo.on_final_transcription, Bool.not_false, if_false,
      ite_true, ite_false, Bool.false_eq_true]
    exact ⟨_, rfl, updateMap_self _ _ _, rfl⟩
  · intro e
    simp only [on_transcribed_audio_update, hclose, hv, hinfo,
      TranscriptionInfo.on_failed_transcription, if_false, ite_false,
      Bool.false_eq_true]
    exact ⟨_, rfl, updateMap_self _ _ _⟩

/-- A registered server-side, non-scheduled owning message context. -/
def exMsg : FullMessageId :=
  { dialog_id := 11, message_id := 4, is_scheduled := false, is_server := true }

/-- A transcription state with two pending waiters. -/
def exInfo : TranscriptionInfo :=
  { transcription_id := 0, is_transcribed := false, text := "a",
    pending := [1, 2] }

/-- A video note at handle 8 carrying `exInfo`. -/
def exNoteT : VideoNote :=
  { exNote5 with file_id := 8, transcription_info := some exInfo }

/-- A manager state caching `exNoteT` at handle 8, with `exMsg` registered for
it. -/
def exTransState : VideoNotesManagerState :=
  { close_flag := false
    video_notes := fun f => if f = 8 then some exNoteT else none
    video_note_messages := fun f => if f = 8 then some [exMsg] else none
    message_video_notes := fun m => if m = exMsg then some 8 else none
    file_manager := { next_file_id := 100, dup_calls := [], merge_calls := [] } }

/-- Witness for C3: a final push at handle 8 fulfills the two pending waiters,
stores the final text, and notifies the registered owning context. -/
theorem transcription_terminal_resolution_witness :
    ∃ s1, on_transcribed_audio_update exTransState 8 false
        (.ok { transcription_id := 42, pending := false, text := "ab" }) =
      some (s1,
        { UpdateEffects.empty with
            fulfilled := exInfo.pending,
            finalized_contexts :=
              on_video_note_transcription_completed exTransState 8 }) ∧
      s1.video_notes 8 = some { exNoteT with transcription_info :=
        (some { transcription_id := 42, is_transcribed := true, text := "ab",
                pending := [] }) } ∧
      on_video_note_transcription_completed exTransState 8 =
        (match exTransState.video_note_messages 8 with
         | none => []
         | some l => l) :=
  (transcription_terminal_resolution exTransState 8 false exNoteT exInfo
    rfl rfl rfl).1
    { transcription_id := 42, pending := false, text := "ab" } rfl

/-- C5: registering the same `(handle, context)` pair twice is a contract
violation: after a completed `register_video_note` of a valid handle for a
non-scheduled, server-side context, the second identical call either aborts on
the fatal `LOG_CHECK` (`none` — the call never returns) or, under the bot-mode
silent no-op policy, returns the registry unchanged, so the registry after
`register; register` equals the registry after a single `register`. -/
theorem register_video_note_twice_fatal (is_bot : Bool)
    (s s1 : VideoNotesManagerState) (f : FileId) (m : FullMessageId)
    (hsched : m.is_scheduled = false) (hserver : m.is_server = true)
    (hvalid : FileId.is_valid f = true)
    (h1 : register_video_note is_bot s f m = some s1) :
    register_video_note is_bot s1 f m = none ∨
      register_video_note is_bot s1 f m = some s1 := by
  cases is_bot with
  | true =>
    right
    simp [register_video_note]
  | false =>
    left
    simp only [register_video_note, hsched, hserver, hvalid, Bool.not_true,
      Bool.or_false, Bool.or_self, if_false, ite_false, not_true,
      Bool.false_eq_true] at h1 ⊢
    rcases hms : s.video_note_messages f with _ | l <;> rw [hms] at h1
    · rcases hmm : s.message_video_notes m with _ | f0 <;> rw [hmm] at h1
      · simp only [List.not_mem_nil, if_neg] at h1
        cases h1
        simp [updateMap_self]
      · simp at h1
    · by_cases hm : m ∈ l
      · simp [hm] at h1
      · rcases hmm : s.message_video_notes m with _ | f0 <;> rw [hmm] at h1
        · simp only [hm, if_neg, if_false] at h1
          cases h1
          simp [updateMap_self]
        · simp [hm] at h1

/-- The empty open manager state. -/
def exRegState0 : VideoNotesManagerState :=
  { close_flag := false
    video_notes := fun _ => none
    video_note_messages := fun _ => none
    message_video_notes := fun _ => none
    file_manager := { next_file_id := 1, dup_calls := [], merge_calls := [] } }

/-- The state after registering handle 5 for `exMsg` in `exRegState0`. -/
def exRegState1 : VideoNotesManagerState :=
  (register_video_note false exRegState0 5 exMsg).getD exRegState0

/-- Witness for C5: on the empty registry, registering `(5, exMsg)` succeeds
and the second identical call aborts or changes nothing. -/
theorem register_video_note_twice_fatal_witness :
    exMsg.is_scheduled = false ∧ exMsg.is_server = true ∧
    FileId.is_valid 5 = true ∧
    register_video_note false exRegState0 5 exMsg = some exRegState1 ∧
    (register_video_note false exRegState1 5 exMsg = none ∨
      register_video_note false exRegState1 5 exMsg = some exRegState1) :=
  ⟨rfl, rfl, by decide, rfl,
   register_video_note_twice_fatal false exRegState0 exRegState1 5 exMsg
     rfl rfl (by decide) rfl⟩

/-- C7: `dup_video_note` is fatal when the source is absent or the destination
is present; otherwise it creates a second entry equal to the source in all
value fields (duration, dimensions, waveform, minithumbnail, thumbnail
metadata), whose thumbnail file handle is a freshly minted handle obtained from
the resource subsystem duplicate operation — recorded in its call log and
distinct from the source thumbnail handle, so merges or mutations through one
entry thumbnail handle cannot touch the other — and whose transcription state
is an independent `copy_if_transcribed` copy; the source entry is left
untouched. -/
theorem dup_video_note_independent (s : VideoNotesManagerState)
    (new_id old_id : FileId) :
    (s.video_notes old_id = none → dup_video_note s new_id old_id = none) ∧
    (∀ c, s.video_notes new_id = some c → dup_video_note s new_id old_id = none) ∧
    (∀ old_video_note, s.video_notes old_id = some old_video_note →
      s.video_notes new_id = none →
      old_video_note.thumbnail.file_id ≠ 0 →
      old_video_note.thumbnail.file_id < s.file_manager.next_file_id →
      ∃ s1 nv, dup_video_note s new_id old_id = some (s1, new_id) ∧
        s1.video_notes new_id = some nv ∧
        nv.file_id = new_id ∧
        nv.duration = old_video_note.duration ∧
        nv.dimensions = old_video_note.dimensions ∧
        nv.waveform = old_video_note.waveform ∧
        nv.minithumbnail = old_video_note.minithumbnail ∧
        nv.thumbnail.dimensions = old_video_note.thumbnail.dimensions ∧
        nv.thumbnail.size = old_video_note.thumbnail.size ∧
        nv.thumbnail.file_id = s.file_manager.next_file_id ∧
        nv.thumbnail.file_id ≠ old_video_note.thumbnail.file_id ∧
        (old_video_note.thumbnail.file_id, nv.thumbnail.file_id) ∈
          s1.file_manager.dup_calls ∧
        nv.transcription_info =
          TranscriptionInfo.copy_if_transcribed old_video_note.transcription_info ∧
        s1.video_notes old_id = some old_video_note) := by
  refine ⟨?_, ?_, ?_⟩
  · intro h
    simp [dup_video_note, h]
  · intro c hc
    rcases ho : s.video_notes old_id with _ | old <;>
      simp [dup_video_note, ho, hc]
  · intro old_video_note hold hnew hfid hlt
    have hne : old_id ≠ new_id := by
      intro h
      rw [h, hnew] at hold
      cases hold
    simp only [dup_video_note, hold, hnew, FileManager.dup_file_id,
      if_neg hfid]
    refine ⟨_, _, rfl, updateMap_self _ _ _, rfl, rfl, rfl, rfl, rfl, rfl,
      rfl, rfl, ?_, ?_, rfl, ?_⟩
    · exact Nat.ne_of_gt hlt
    · exact List.mem_cons_self _ _
    · simp [updateMap, hne, hold]

/-- The cached source note at handle 2, thumbnail handle 20. -/
def exOldNote : VideoNote :=
  { file_id := 2, duration := 5, dimensions := { width := 240, height := 240 },
    waveform := "w", minithumbnail := "m",
    thumbnail := { file_id := 20, dimensions := { width := 10, height := 10 },
                   size := 100 },
    transcription_info := none }

/-- A second cached note at handle 1, thumbnail handle 10. -/
def exNewNote : VideoNote :=
  { exOldNote with
    file_id := 1
    thumbnail := { file_id := 10, dimensions := { width := 10, height := 10 },
                   size := 100 } }

/-- A manager state caching `exNewNote` at handle 1 and `exOldNote` at
handle 2; the file manager has minted handles below 100. -/
def exMergeState : VideoNotesManagerState :=
  { close_flag := false
    video_notes := fun f =>
      if f = 1 then some exNewNote else if f = 2 then some exOldNote else none
    video_note_messages := fun _ => none
    message_video_notes := fun _ => none
    file_manager := { next_file_id := 100, dup_calls := [], merge_calls := [] } }

/-- Witness for C7: duplicating handle 2 to the absent handle 3 copies the value
fields and mints thumbnail handle 100, distinct from the source thumbnail 20. -/
theorem dup_video_note_independent_witness :
    exMergeState.video_notes 2 = some exOldNote ∧
    exMergeState.video_notes 3 = none ∧
    exOldNote.thumbnail.file_id ≠ 0 ∧
    exOldNote.thumbnail.file_id < exMergeState.file_manager.next_file_id ∧
    (∃ s1 nv, dup_video_note exMergeState 3 2 = some (s1, 3) ∧
      s1.video_notes 3 = some nv ∧
      nv.file_id = 3 ∧
      nv.duration = exOldNote.duration ∧
      nv.dimensions = exOldNote.dimensions ∧
      nv.waveform = exOldNote.waveform ∧
      nv.minithumbnail = exOldNote.minithumbnail ∧
      nv.thumbnail.dimensions = exOldNote.thumbnail.dimensions ∧
      nv.thumbnail.size = exOldNote.thumbnail.size ∧
      nv.thumbnail.file_id = exMergeState.file_manager.next_file_id ∧
      nv.thumbnail.file_id ≠ exOldNote.thumbnail.file_id ∧
      (exOldNote.thumbnail.file_id, nv.thumbnail.file_id) ∈
        s1.file_manager.dup_calls ∧
      nv.transcription_info =
        TranscriptionInfo.copy_if_transcribed exOldNote.transcription_info ∧
      s1.video_notes 2 = some exOldNote) :=
  ⟨rfl, rfl, by decide, by decide,
   (dup_video_note_independent exMergeState 3 2).2.2 exOldNote rfl rfl
     (by decide) (by decide)⟩

/-- C1 counterexample: in `exMergeState` both handles 1 and 2 are cached and
their thumbnail handles differ (10 and 20), yet `merge_video_notes 1 2` records
only the entity-level merge `(1, 2)` — the pairwise thumbnail merge the claim
asserts does not happen (it is commented out in the source), so the merge log
does not contain the thumbnail pair. -/
theorem merge_video_notes_thumbnails_counterexample :
    ((exMergeState.video_notes 1).map (fun v => v.thumbnail.file_id) =
      some 10) ∧
    ((exMergeState.video_notes 2).map (fun v => v.thumbnail.file_id) =
      some 20) ∧
    merge_video_notes exMergeState 1 2 =
      some { exMergeState with
               file_manager := { next_file_id := 100, dup_calls := [],
                                 merge_calls := [(1, 2)] } } ∧
    ((10, 20) ∉ [((1 : FileId), (2 : FileId))] ∧
     (20, 10) ∉ [((1 : FileId), (2 : FileId))]) :=
  ⟨rfl, rfl, rfl, by decide, by decide⟩

/-- C1 (amended): for distinct valid handles with `old_id` cached: if `new_id`
is absent the merge degrades to `dup_video_note` (afterwards `new_id` holds a
copy of `old_id`'s value fields with an independently duplicated thumbnail
handle); if both are present the cache — including both thumbnail handles — is
left untouched even when the thumbnail handles differ, because the pairwise
thumbnail merge is disabled in the source; in either case the entity-level
resource merge for `(new_id, old_id)` is invoked. -/
theorem merge_video_notes_amended (s : VideoNotesManagerState)
    (new_id old_id : FileId) (old_video_note : VideoNote)
    (hvo : FileId.is_valid old_id = true) (hvn : FileId.is_valid new_id = true)
    (hne : new_id ≠ old_id)
    (hold : s.video_notes old_id = some old_video_note) :
    (s.video_notes new_id = none →
      ∃ r, dup_video_note s new_id old_id = some r ∧
        merge_video_notes s new_id old_id =
          some { r.1 with
                   file_manager := (r.1).file_manager.merge new_id old_id } ∧
        ∃ nv, (r.1).video_notes new_id = some nv ∧
          nv.duration = old_video_note.duration ∧
          nv.dimensions = old_video_note.dimensions ∧
          nv.waveform = old_video_note.waveform ∧
          nv.minithumbnail = old_video_note.minithumbnail ∧
          nv.thumbnail.dimensions = old_video_note.thumbnail.dimensions) ∧
    (∀ c, s.video_notes new_id = some c →
      merge_video_notes s new_id old_id =
        some { s with file_manager := s.file_manager.merge new_id old_id }) := by
  constructor
  · intro hnew
    simp only [merge_video_notes, dup_video_note, hold, hnew, hvo, hvn,
      if_neg hne, and_self, not_true, if_false, ite_false, Bool.true_and,
      ite_true]
    exact ⟨_, rfl, rfl, _, updateMap_self _ _ _, rfl, rfl, rfl, rfl, rfl⟩
  · intro c hc
    simp only [merge_video_notes, hold, hc, hvo, hvn, if_neg hne, and_self,
      not_true, if_false, ite_false, Bool.true_and, ite_true]

/-- Witness for C1: merging absent handle 3 with cached handle 2 duplicates,
and merging the two cached handles 1 and 2 leaves the cache untouched while
recording the entity-level merge. -/
theorem merge_video_notes_amended_witness :
    ((3 : FileId) ≠ 2) ∧ ((1 : FileId) ≠ 2) ∧
    exMergeState.video_notes 2 = some exOldNote ∧
    exMergeState.video_notes 3 = none ∧
    exMergeState.video_notes 1 = some exNewNote ∧
    (∃ r, dup_video_note exMergeState 3 2 = some r ∧
      merge_video_notes exMergeState 3 2 =
        some { r.1 with file_manager := (r.1).file_manager.merge 3 2 } ∧
      ∃ nv, (r.1).video_notes 3 = some nv ∧
        nv.duration = exOldNote.duration ∧
        nv.dimensions = exOldNote.dimensions ∧
        nv.waveform = exOldNote.waveform ∧
        nv.minithumbnail = exOldNote.minithumbnail ∧
        nv.thumbnail.dimensions = exOldNote.thumbnail.dimensions) ∧
    merge_video_notes exMergeState 1 2 =
      some { exMergeState with
               file_manager := exMergeState.file_manager.merge 1 2 } :=
  ⟨by decide, by decide, rfl, rfl, rfl,
   (merge_video_notes_amended exMergeState 3 2 exOldNote (by decide) (by decide)
     (by decide) rfl).1 rfl,
   (merge_video_notes_amended exMergeState 1 2 exOldNote (by decide) (by decide)
     (by decide) rfl).2 exNewNote rfl⟩

/-- The consistent-pair invariant on the two registry maps: every context list
is non-empty (no empty residual entries) and duplicate-free, a context listed
under a handle maps back to that handle, and a context bound to a handle is
listed under it. -/
def RegistryMapsInvariant (vnm : FileId → Option (List FullMessageId))
    (mvn : FullMessageId → Option FileId) : Prop :=
  (∀ f l, vnm f = some l →
    l ≠ [] ∧ l.Nodup ∧ ∀ m ∈ l, mvn m = some f) ∧
  (∀ m f, mvn m = some f → ∃ l, vnm f = some l ∧ m ∈ l)

/-- The back-reference registry invariant of a manager state. -/
def RegistryInvariant (s : VideoNotesManagerState) : Prop :=
  RegistryMapsInvariant s.video_note_messages s.message_video_notes

/-- Inserting an unregistered pair `(f, m)` preserves the registry invariant. -/
theorem registerMaps_invariant (vnm : FileId → Option (List FullMessageId))
    (mvn : FullMessageId → Option FileId) (f : FileId) (m : FullMessageId)
    (l0 : List FullMessageId)
    (hl0 : vnm f = some l0 ∨ (vnm f = none ∧ l0 = []))
    (hm : m ∉ l0) (hmm : mvn m = none)
    (hinv : RegistryMapsInvariant vnm mvn) :
    RegistryMapsInvariant (updateMap vnm f (some (m :: l0)))
      (updateMap mvn m (some f)) := by
  obtain ⟨hinv1, hinv2⟩ := hinv
  have hnodup : l0.Nodup := by
    rcases hl0 with h | ⟨h, rfl⟩
    · exact (hinv1 f l0 h).2.1
    · exact List.nodup_nil
  have hmemf : ∀ m2 ∈ l0, mvn m2 = some f := by
    rcases hl0 with h | ⟨h, rfl⟩
    · exact (hinv1 f l0 h).2.2
    · intro m2 hm2
      simp at hm2
  constructor
  · intro f2 l2 h2
    by_cases hf : f2 = f
    · subst hf
      rw [updateMap_self] at h2
      cases h2
      refine ⟨List.cons_ne_nil _ _, List.nodup_cons.mpr ⟨hm, hnodup⟩, ?_⟩
      intro m2 hm2
      rcases List.mem_cons.mp hm2 with rfl | hm3
      · exact updateMap_self _ _ _
      · have hne2 : m2 ≠ m := fun h => hm (h ▸ hm3)
        rw [updateMap_other _ _ _ _ hne2]
        exact hmemf m2 hm3
    · rw [updateMap_other _ _ _ _ hf] at h2
      obtain ⟨hne0, hnd, hmem⟩ := hinv1 f2 l2 h2
      refine ⟨hne0, hnd, ?_⟩
      intro m2 hm2
      have hne2 : m2 ≠ m := by
        intro h
        subst h
        rw [hmem m2 hm2] at hmm
        cases hmm
      rw [updateMap_other _ _ _ _ hne2]
      exact hmem m2 hm2
  · intro m2 f2 h2
    by_cases hm2 : m2 = m
    · subst hm2
      rw [updateMap_self] at h2
      cases h2
      exact ⟨m2 :: l0, updateMap_self _ _ _, List.mem_cons_self _ _⟩
    · rw [updateMap_other _ _ _ _ hm2] at h2
      obtain ⟨l2, hl2, hml2⟩ := hinv2 m2 f2 h2
      by_cases hf : f2 = f
      · subst hf
        have hll : l2 = l0 := by
          rcases hl0 with h | ⟨h, rfl⟩
          · rw [h] at hl2
            cases hl2
            rfl
          · rw [h] at hl2
            cases hl2
        subst hll
        exact ⟨m :: l2, updateMap_self _ _ _, List.mem_cons_of_mem _ hml2⟩
      · exact ⟨l2, by rw [updateMap_other _ _ _ _ hf]; exact hl2, hml2⟩

/-- Removing a registered pair `(f, m)` — dropping the handle entry entirely
when `m` was its last context — preserves the registry invariant. -/
theorem unregisterMaps_invariant (vnm : FileId → Option (List FullMessageId))
    (mvn : FullMessageId → Option FileId) (f : FileId) (m : FullMessageId)
    (l0 : List FullMessageId)
    (hl0 : vnm f = some l0) (hm : m ∈ l0)
    (hinv : RegistryMapsInvariant vnm mvn) :
    RegistryMapsInvariant
      (updateMap vnm f
        (if (l0.erase m).isEmpty then none else some (l0.erase m)))
      (updateMap mvn m none) := by
  obtain ⟨hinv1, hinv2⟩ := hinv
  obtain ⟨hne0, hnodup, hmemf⟩ := hinv1 f l0 hl0
  constructor
  · intro f2 l2 h2
    by_cases hf : f2 = f
    · subst hf
      rw [updateMap_self] at h2
      by_cases he : (l0.erase m).isEmpty
      · rw [if_pos he] at h2
        cases h2
      · rw [if_neg he] at h2
        cases h2
        refine ⟨?_, hnodup.erase m, ?_⟩
        · intro hemp
          rw [hemp] at he
          exact he rfl
        · intro m2 hm2
          have hmm2 := (List.Nodup.mem_erase_iff hnodup).mp hm2
          rw [updateMap_other _ _ _ _ hmm2.1]
          exact hmemf m2 hmm2.2
    · rw [updateMap_other _ _ _ _ hf] at h2
      obtain ⟨hne1, hnd1, hmem1⟩ := hinv1 f2 l2 h2
      refine ⟨hne1, hnd1, ?_⟩
      intro m2 hm2
      have hne2 : m2 ≠ m := by
        intro h
        subst h
        have ha := hmem1 m2 hm2
        have hb := hmemf m2 hm
        rw [ha] at hb
        cases hb
        exact hf rfl
      rw [updateMap_other _ _ _ _ hne2]
      exact hmem1 m2 hm2
  · intro m2 f2 h2
    by_cases hm2 : m2 = m
    · subst hm2
      rw [updateMap_self] at h2
      cases h2
    · rw [updateMap_other _ _ _ _ hm2] at h2
      obtain ⟨l2, hl2, hml2⟩ := hinv2 m2 f2 h2
      by_cases hf : f2 = f
      · subst hf
        rw [hl0] at hl2
        cases hl2
        have hmem2 : m2 ∈ l0.erase m :=
          (List.Nodup.mem_erase_iff hnodup).mpr ⟨hm2, hml2⟩
        have hne3 : ¬(l0.erase m).isEmpty = true := by
          intro he
          rw [List.isEmpty_iff] at he
          rw [he] at hmem2
          simp at hmem2
        refine ⟨l0.erase m, ?_, hmem2⟩
        rw [updateMap_self, if_neg hne3]
      · exact ⟨l2, by rw [updateMap_other _ _ _ _ hf]; exact hl2, hml2⟩

/-- C6: every completed `register_video_note` or `unregister_video_note` call
preserves the back-reference registry invariant: a pair `(handle, context)` is
in the handle-to-contexts map iff the context maps to the handle in the
context-to-handle map, and no handle ever holds an empty residual context
entry — removing the last context for a handle drops its entry entirely. -/
theorem registry_invariant_preserved (is_bot : Bool)
    (s : VideoNotesManagerState) (f : FileId) (m : FullMessageId)
    (hs : RegistryInvariant s) :
    (∀ s1, register_video_note is_bot s f m = some s1 →
      RegistryInvariant s1) ∧
    (∀ s1, unregister_video_note is_bot s f m = some s1 →
      RegistryInvariant s1) := by
  constructor
  · intro s1 h1
    simp only [register_video_note] at h1
    by_cases hg : (m.is_scheduled || !m.is_server || is_bot) = true
    · rw [if_pos hg] at h1
      cases h1
      exact hs
    · rw [if_neg hg] at h1
      by_cases hvf : FileId.is_valid f = true
      case neg =>
        rw [if_pos (by simpa using hvf)] at h1
        cases h1
      case pos =>
        rw [if_neg (by simp [hvf])] at h1
        rcases hms : s.video_note_messages f with _ | l <;> rw [hms] at h1
        · rcases hmm : s.message_video_notes m with _ | f0 <;> rw [hmm] at h1
          · rw [if_neg (by simp)] at h1
            cases h1
            exact registerMaps_invariant _ _ f m [] (Or.inr ⟨hms, rfl⟩)
              (by simp) hmm hs
          · simp at h1
        · by_cases hm : m ∈ l
          · rw [if_pos hm] at h1
            cases h1
          · rw [if_neg hm] at h1
            rcases hmm : s.message_video_notes m with _ | f0 <;> rw [hmm] at h1
            · cases h1
              exact registerMaps_invariant _ _ f m l (Or.inl hms) hm hmm hs
            · cases h1
  · intro s1 h1
    simp only [unregister_video_note] at h1
    by_cases hg : (m.is_scheduled || !m.is_server || is_bot) = true
    · rw [if_pos hg] at h1
      cases h1
      exact hs
    · rw [if_neg hg] at h1
      by_cases hvf : FileId.is_valid f = true
      case neg =>
        rw [if_pos (by simpa using hvf)] at h1
        cases h1
      case pos =>
        rw [if_neg (by simp [hvf])] at h1
        rcases hms : s.video_note_messages f with _ | l <;> rw [hms] at h1
        · rw [if_neg (by simp)] at h1
          cases h1
        · by_cases hm : m ∈ l
          · rw [if_pos hm] at h1
            rcases hmm : s.message_video_notes m with _ | f0 <;> rw [hmm] at h1
            · cases h1
            · cases h1
              exact unregisterMaps_invariant _ _ f m l hms hm hs
          · rw [if_neg hm] at h1
            cases h1

/-- Witness for C6: the empty registry satisfies the invariant, and it is
preserved across the concrete registration of `(5, exMsg)`. -/
theorem registry_invariant_preserved_witness :
    RegistryInvariant exRegState0 ∧ RegistryInvariant exRegState1 := by
  have h0 : RegistryInvariant exRegState0 := by
    constructor
    · intro f l h
      simp [exRegState0] at h
    · intro m f h
      simp [exRegState0] at h
  exact ⟨h0, (registry_invariant_preserved false exRegState0 5 exMsg h0).1
    exRegState1 rfl⟩

end Spec2Proof
